import Mathlib

/-!
Verification of the pipx-installer orchestration logic.

The development shallowly embeds the two Python modules of the repository,
`src/pipx_installer/__init__.py` and `src/install_pipx.py`, as pure Lean
functions.  Filesystem and subprocess effects are recorded as an explicit
event trace, and observable exceptions are reified as values of `PyError`.
Paths are plain strings (the embedding treats user-supplied paths as already
absolute; `Path(...).expanduser().resolve()` is the identity on them, which
is faithful for the absolute inputs all theorems below use).
-/

namespace PipxInstaller

/-- Python exceptions observable in this program, tagged by raise site. -/
inductive PyError where
  /-- `FileExistsError` raised explicitly by `create_venv`. -/
  | fileExistsTarget
  /-- `FileExistsError` raised by `Path.symlink_to` on an occupied path. -/
  | fileExistsSymlink
  /-- `TypeError` from `pathlib.Path(None)` in `export_bin`. -/
  | typeErrorPathNone
  /-- `TypeError` from `str.startswith(None)` in `_get_default_bin_dir`. -/
  | typeErrorStartswithNone
  /-- `AttributeError` from `None.split(":")` in `_get_default_bin_dir`. -/
  | attributeErrorNoneSplit
  /-- `subprocess.CalledProcessError` from `subprocess.run(..., check=True)`. -/
  | calledProcessError
deriving DecidableEq, Repr

/-- One observable effect of a run, in program order. -/
inductive Event where
  | logCritical (msg : String)
  | logInfo (msg : String)
  | logDebug (msg : String)
  /-- `Path.touch(exist_ok=False)` creating a file. -/
  | touchFile (p : String)
  /-- `Path.unlink()`. -/
  | unlinkFile (p : String)
  /-- `shutil.rmtree`. -/
  | rmtree (p : String)
  /-- `venv.EnvBuilder(...).create(p)`. -/
  | createVenvDir (p : String)
  /-- `subprocess.run(cmd, check=True)`. -/
  | runSubprocess (cmd : List String)
  /-- `Path.symlink_to`: a symlink at `link` pointing to `target`. -/
  | createSymlink (link : String) (target : String)
deriving DecidableEq, Repr

/-- Does the event create, delete or modify a filesystem path? -/
def Event.isMutation : Event → Bool
  | .touchFile _ => true
  | .unlinkFile _ => true
  | .rmtree _ => true
  | .createVenvDir _ => true
  | .createSymlink _ _ => true
  | _ => false

/-- Is the event the invocation of a subprocess? -/
def Event.isSubprocess : Event → Bool
  | .runSubprocess _ => true
  | _ => false

/-- Does the event delete a pre-existing filesystem path? -/
def Event.isRemoval : Event → Bool
  | .unlinkFile _ => true
  | .rmtree _ => true
  | _ => false

/-- Observable status of one filesystem path, as the `pathlib` predicates
used by the program report it.  `fsExists` is `Path.exists()`, which follows
symlinks; `isSymlink` is `Path.is_symlink()`; `isDir` is `Path.is_dir()`
(also following symlinks); `dirEmpty` says `iterdir()` yields nothing. -/
structure PathStatus where
  fsExists : Bool
  isSymlink : Bool
  isDir : Bool
  dirEmpty : Bool
deriving DecidableEq, Repr

/-- `pathlib` guarantees that a path for which `is_dir()` holds exists
(a broken symlink is not a directory). -/
def PathStatus.WF (st : PathStatus) : Prop :=
  st.isDir = true → st.fsExists = true

/-- Result of one pipeline step: its event trace and the exception it
raised, if any.  Events before the raise are kept in order. -/
structure StepOut where
  events : List Event
  error : Option PyError
deriving Repr

/-! ### Python string primitives used by the source, over `List Char` -/

/-- `str.split(sep)` for a one-character separator: like Python, never
returns an empty list and keeps empty fields. -/
def splitOnChar (sep : Char) : List Char → List (List Char)
  | [] => [[]]
  | c :: cs =>
    let r := splitOnChar sep cs
    if c = sep then [] :: r
    else
      match r with
      | [] => [[c]]
      | g :: gs => (c :: g) :: gs

/-- `s.split(sep)` on strings. -/
def pySplit (s : String) (sep : Char) : List String :=
  (splitOnChar sep s.data).map (fun l => String.mk l)

/-- `str.startswith`. -/
def pyStartsWith (s pre : String) : Bool :=
  pre.data.isPrefixOf s.data

/-- `str.rstrip("/")`, as `posixpath.expanduser` applies to the home dir. -/
def pyRstripSlash (s : String) : String :=
  String.mk ((s.data.reverse.dropWhile (fun c => c = '/')).reverse)

/-- Truthiness of an optional string (`None` and `""` are falsy). -/
def pyTruthy : Option String → Bool
  | none => false
  | some s => !(s.data.isEmpty)

theorem splitOnChar_ne_nil (sep : Char) (l : List Char) :
    splitOnChar sep l ≠ [] := by
  cases l with
  | nil => simp [splitOnChar]
  | cons c cs =>
    simp only [splitOnChar]
    split
    · simp
    · split
      · simp
      · simp

theorem pySplit_ne_nil (s : String) (sep : Char) : pySplit s sep ≠ [] := by
  simp only [pySplit, ne_eq, List.map_eq_nil_iff]
  exact splitOnChar_ne_nil sep s.data

/-! ### `src/pipx_installer/__init__.py`: pipeline steps -/

/-- `_is_path_free(target, empty_dir_ok=...)`.  A path is free when it
neither exists nor is a (possibly broken) symlink, or, when
`empty_dir_ok` holds, when it is an empty directory. -/
def _is_path_free (st : PathStatus) (empty_dir_ok : Bool := false) : Bool :=
  if !st.fsExists && !st.isSymlink then true
  else if empty_dir_ok && st.isDir && st.dirEmpty then true
  else false

/-- `_remove_path(target)`: `shutil.rmtree` for a directory, otherwise
`Path.unlink`. -/
def _remove_path (st : PathStatus) (p : String) : List Event :=
  if st.isDir then [Event.rmtree p] else [Event.unlinkFile p]

/-- `create_venv(install_dir, force=..., dry_run=...)`.  `st` is the
filesystem status of the resolved `install_dir`. -/
def create_venv (install_dir : String) (st : PathStatus)
    (force dry_run : Bool) : StepOut :=
  if !(_is_path_free st true) && !force then
    ⟨[], some PyError.fileExistsTarget⟩
  else
    let removeEvs :=
      if !(_is_path_free st true) then
        [Event.logInfo "Removing pre-existing target."] ++
          (if dry_run then [] else _remove_path st install_dir)
      else []
    ⟨removeEvs ++ [Event.logInfo "Creating venv"] ++
      (if dry_run then [] else [Event.createVenvDir install_dir]), none⟩

/-- The pip command `install_pipx` runs. -/
def pipInstallCmd (install_dir : String) : List String :=
  [install_dir ++ "/bin/pip", "install", "pipx"]

/-- `install_pipx(install_dir, dry_run=...)`.  `subOk cmd` tells whether
the subprocess `cmd` exits with status zero. -/
def install_pipx (install_dir : String) (dry_run : Bool)
    (subOk : List String → Bool) : StepOut :=
  let evs := [Event.logInfo "Installing pipx"] ++
    (if dry_run then [] else [Event.runSubprocess (pipInstallCmd install_dir)])
  ⟨evs, if !dry_run && !(subOk (pipInstallCmd install_dir)) then
          some PyError.calledProcessError
        else none⟩

/-- `export_bin(install_dir=..., bin_dir=..., dry_run=...)`.
`bin_dir = none` models the Python value `None`, on which
`pathlib.Path(None)` raises `TypeError` before anything is logged.
`linkExists` is whether a filesystem entry (even a broken symlink)
already occupies `<bin_dir>/pipx`, in which case `symlink_to` raises
`FileExistsError`. -/
def export_bin (install_dir : String) (bin_dir : Option String)
    (linkExists dry_run : Bool) : StepOut :=
  match bin_dir with
  | none => ⟨[], some PyError.typeErrorPathNone⟩
  | some b =>
    let evs := [Event.logInfo "Creating symlink"]
    if dry_run then ⟨evs, none⟩
    else if linkExists then ⟨evs, some PyError.fileExistsSymlink⟩
    else ⟨evs ++ [Event.createSymlink (b ++ "/pipx")
                    (install_dir ++ "/bin/pipx")], none⟩

/-- The parsed command-line arguments of `install-pipx`
(`src/pipx_installer/__init__.py`).  `bin_dir = none` is the parser
default when `_get_default_bin_dir` found nothing. -/
structure CliArgs where
  install_dir : String
  force : Bool
  dry_run : Bool
  bin_dir : Option String
  no_export_bin : Bool
  log_config : Option String
  verbose : Nat
  quiet : Nat
deriving DecidableEq, Repr

/-- The parts of the outside world `cli` observes: the status of the
resolved installation target, whether `<bin_dir>/pipx` is already
occupied, and which subprocesses succeed. -/
structure World where
  targetStatus : PathStatus
  linkExists : Bool
  subOk : List String → Bool

/-- `cli(...)` of `src/pipx_installer/__init__.py`: log a critical message
when no bin dir is available and export is not skipped (the code does not
abort there), then create the venv, install pipx, and export the
executable unless `no_export_bin`. -/
def warnEvents (a : CliArgs) : List Event :=
  if !(pyTruthy a.bin_dir) && !a.no_export_bin then
    [Event.logCritical "Could not determine a suitable BIN_DIR."]
  else []

def cli (a : CliArgs) (w : World) : StepOut :=
  let warnEvs := warnEvents a
  let cv := create_venv a.install_dir w.targetStatus a.force a.dry_run
  match cv.error with
  | some er => ⟨warnEvs ++ cv.events, some er⟩
  | none =>
    let ip := install_pipx a.install_dir a.dry_run w.subOk
    match ip.error with
    | some er => ⟨warnEvs ++ cv.events ++ ip.events, some er⟩
    | none =>
      if a.no_export_bin then
        ⟨warnEvs ++ cv.events ++ ip.events ++
          [Event.logDebug "Skip creating a symlink of pipx executable."], none⟩
      else
        let eb := export_bin a.install_dir a.bin_dir w.linkExists a.dry_run
        ⟨warnEvs ++ cv.events ++ ip.events ++ eb.events, eb.error⟩

/-! ### Logging configuration -/

/-- What `setup_logging` hands to the `logging` package: either a config
file, or a severity threshold for `basicConfig`. -/
inductive LogSetup where
  | fromFile (path : String)
  | basicLevel (level : Int)
deriving DecidableEq, Repr

/-- `logging.INFO`. -/
def logging_INFO : Int := 20

/-- `logging.INFO + 10 * (quiet - verbose)`: the severity threshold both
modules derive from the repeatable `-q`/`-v` flags. -/
def effectiveLevel (verbose quiet : Nat) : Int :=
  logging_INFO + 10 * ((quiet : Int) - (verbose : Int))

/-- `setup_logging(log_config=..., verbose=..., quiet=...)` of
`src/pipx_installer/__init__.py`: a truthy `log_config` is loaded and the
verbosity-derived level is never applied; otherwise `basicConfig` gets
`logging.INFO + 10 * (quiet - verbose)`. -/
def setup_logging (log_config : Option String) (verbose quiet : Nat) : LogSetup :=
  match log_config with
  | some cfg =>
    if cfg.data.isEmpty then LogSetup.basicLevel (effectiveLevel verbose quiet)
    else LogSetup.fromFile cfg
  | none => LogSetup.basicLevel (effectiveLevel verbose quiet)

/-! ### `_get_default_bin_dir` and module import -/

/-- `PREFERRED_BIN_DIRS`. -/
def PREFERRED_BIN_DIRS : List String := ["~/.local/bin", "~/bin"]

/-- `os.path.expanduser` restricted to the tilde-prefixed shapes the
program uses: `~/rest` becomes `rstrip(userhome, "/") + "/rest"`; other
strings are returned unchanged. -/
def expanduser (userhome p : String) : String :=
  if pyStartsWith p "~/" then
    pyRstripSlash userhome ++ String.mk (p.data.drop 1)
  else p

/-- The `for bin_dir in PREFERRED_BIN_DIRS` loop: first preferred dir whose
expansion is an entry of `paths`, returned unexpanded. -/
def findMatchingPreferred (userhome : String) (paths : List String) :
    List String → Option String
  | [] => none
  | d :: rest =>
    if paths.contains (expanduser userhome d) then some d
    else findMatchingPreferred userhome paths rest

/-- The `for bin_dir in reversed(paths)` loop testing
`bin_dir.startswith(env_home)`; takes the already-reversed list. -/
def findHomePrefix (env_home : String) : List String → Option String
  | [] => none
  | d :: rest =>
    if pyStartsWith d env_home then some d else findHomePrefix env_home rest

/-- The probing `for bin_dir in reversed(paths)` loop: touch
`<bin_dir>/pipx` with `exist_ok=False`; on `OSError` continue (nothing was
created), otherwise unlink the probe file and return.  `probe d` says
whether the touch succeeds in `d`.  Takes the already-reversed list and
also returns the trace of filesystem events. -/
def probeLoop (probe : String → Bool) : List String → Option String × List Event
  | [] => (none, [])
  | d :: rest =>
    if probe d then
      (some d, [Event.touchFile (d ++ "/pipx"), Event.unlinkFile (d ++ "/pipx")])
    else probeLoop probe rest

/-- The process environment as `_get_default_bin_dir` reads it: the `PATH`
and `HOME` variables (absent = Python `None`), and the home directory the
`pwd` database reports, which `os.path.expanduser` falls back to when
`HOME` is unset. -/
structure Env where
  pathVar : Option String
  homeVar : Option String
  pwHome : String
deriving DecidableEq, Repr

/-- Outcome of `_get_default_bin_dir`: a directory, `None`, or an
exception escaping the function. -/
inductive DiscResult where
  | found (d : String)
  | noneFound
  | err (e : PyError)
deriving DecidableEq, Repr

/-- `_get_default_bin_dir()`.  `os.getenv("PATH")` being `None` makes
`env_path.split(":")` raise `AttributeError`.  When no preferred dir
matches and `HOME` is unset, the first `bin_dir.startswith(env_home)` of
the home scan raises `TypeError` (the scanned list is never empty since
`str.split` never returns an empty list; the guard keeps the translation
total). -/
def _get_default_bin_dir (e : Env) (probe : String → Bool) :
    DiscResult × List Event :=
  match e.pathVar with
  | none => (DiscResult.err PyError.attributeErrorNoneSplit, [])
  | some pathStr =>
    let paths := pySplit pathStr ':'
    let userhome := e.homeVar.getD e.pwHome
    match findMatchingPreferred userhome paths PREFERRED_BIN_DIRS with
    | some d => (DiscResult.found d, [])
    | none =>
      match e.homeVar with
      | none =>
        if paths.isEmpty then
          match probeLoop probe paths.reverse with
          | (some d, evs) => (DiscResult.found d, evs)
          | (none, evs) => (DiscResult.noneFound, evs)
        else (DiscResult.err PyError.typeErrorStartswithNone, [])
      | some h =>
        match findHomePrefix h paths.reverse with
        | some d => (DiscResult.found d, [])
        | none =>
          match probeLoop probe paths.reverse with
          | (some d, evs) => (DiscResult.found d, evs)
          | (none, evs) => (DiscResult.noneFound, evs)

/-- Outcome of one whole process invocation of `install-pipx`:
`importError` is an exception escaping module import (before
`argparse` runs, so before any flag is considered); `cliOut` is the run of
`cli` when import succeeded; `events` is the full trace, import included. -/
structure ProgramOut where
  importError : Option PyError
  cliOut : Option StepOut
  events : List Event
deriving Repr

/-- A whole invocation of `src/pipx_installer/__init__.py`:
`DEFAULT_BIN_DIR = _get_default_bin_dir()` runs at import time; then
argument parsing produces `CliArgs` from that default (`argsOf` models the
parser plus the user's command line, receiving `DEFAULT_BIN_DIR`), and
`cli` runs. -/
def program (e : Env) (probe : String → Bool)
    (argsOf : Option String → CliArgs) (w : World) : ProgramOut :=
  match _get_default_bin_dir e probe with
  | (DiscResult.err er, evs) => ⟨some er, none, evs⟩
  | (DiscResult.found d, evs) =>
    let out := cli (argsOf (some d)) w
    ⟨none, some out, evs ++ out.events⟩
  | (DiscResult.noneFound, evs) =>
    let out := cli (argsOf none) w
    ⟨none, some out, evs ++ out.events⟩

/-! ### `src/install_pipx.py` -/

/-- `CORE_VENV_DEPS`. -/
def CORE_VENV_DEPS : List String := ["pip", "setuptools"]

/-- The parsed command line of `src/install_pipx.py`. -/
structure Cli2Args where
  env_dir : String
  system_site_packages : Bool
  clear : Bool
  symlinks : Bool
  prompt : Option String
  upgrade_deps : Bool
  ensure_path : Bool
  dry_run : Bool
  log_config : Option String
  verbose : Nat
  quiet : Nat
deriving DecidableEq, Repr

/-- The `pip install --upgrade pip setuptools` command of
`src/install_pipx.py`. -/
def upgradeCmd (env_dir : String) : List String :=
  [env_dir ++ "/bin/pip", "install", "--upgrade"] ++ CORE_VENV_DEPS

/-- The `pip install pipx` command of `src/install_pipx.py`. -/
def installCmd (env_dir : String) : List String :=
  [env_dir ++ "/bin/pip", "install", "pipx"]

/-- The `pipx ensurepath` command of `src/install_pipx.py`. -/
def ensurepathCmd (env_dir : String) : List String :=
  [env_dir ++ "/bin/pipx", "ensurepath"]

/-- `cli(...)` of `src/install_pipx.py`: create the environment, optionally
upgrade the core dependencies, install pipx, and when `ensure_path` run
`pipx ensurepath` and symlink the executable into `LOCAL_BIN_DIR`.  Every
subprocess runs with `check=True`; a non-zero exit raises
`CalledProcessError` at that point.  `localBinDir` is the resolved
`LOCAL_BIN_DIR`; `linkExists` is whether `<localBinDir>/pipx` is already
occupied. -/
def cli2 (a : Cli2Args) (localBinDir : String) (subOk : List String → Bool)
    (linkExists : Bool) : StepOut :=
  let ev0 := [Event.logInfo "creating Python environment"] ++
    (if a.dry_run then [] else [Event.createVenvDir a.env_dir])
  let upEvs :=
    if a.upgrade_deps then
      [Event.logInfo "upgrading core dependencies"] ++
        (if a.dry_run then [] else [Event.runSubprocess (upgradeCmd a.env_dir)])
    else []
  if a.upgrade_deps && !a.dry_run && !(subOk (upgradeCmd a.env_dir)) then
    ⟨ev0 ++ upEvs, some PyError.calledProcessError⟩
  else
    let instEvs := [Event.logInfo "installing pipx"] ++
      (if a.dry_run then [] else [Event.runSubprocess (installCmd a.env_dir)])
    if !a.dry_run && !(subOk (installCmd a.env_dir)) then
      ⟨ev0 ++ upEvs ++ instEvs, some PyError.calledProcessError⟩
    else if !a.ensure_path then
      ⟨ev0 ++ upEvs ++ instEvs, none⟩
    else
      let ensEvs := [Event.logInfo "calling pipx ensurepath"] ++
        (if a.dry_run then [] else [Event.runSubprocess (ensurepathCmd a.env_dir)])
      if !a.dry_run && !(subOk (ensurepathCmd a.env_dir)) then
        ⟨ev0 ++ upEvs ++ instEvs ++ ensEvs, some PyError.calledProcessError⟩
      else
        let linkEvs := [Event.logInfo "creating symlink to pipx"] ++
          (if a.dry_run || linkExists then []
           else [Event.createSymlink (localBinDir ++ "/pipx")
                   (a.env_dir ++ "/bin/pipx")])
        ⟨ev0 ++ upEvs ++ instEvs ++ ensEvs ++ linkEvs,
          if !a.dry_run && linkExists then some PyError.fileExistsSymlink
          else none⟩

/-! ### Spec-side definitions for the discovery policy -/

/-- Is `d` nested under the directory `home` (it is `home` itself or lies
below it)?  This is the "nested under the user's home directory" reading
of the spec. -/
def isNestedUnder (home d : String) : Bool :=
  d = home || (home ++ "/").data.isPrefixOf d.data

/-- The discovery policy as the spec words it, with stage two reading
"nested under the user's home directory" literally: preferred candidates
first, then the reverse scan for a home-nested entry, then the reverse
probe scan, else absent. -/
def binDirSpecNested (userhome env_home : String) (paths : List String)
    (probe : String → Bool) : Option String :=
  match PREFERRED_BIN_DIRS.find? (fun d => paths.contains (expanduser userhome d)) with
  | some d => some d
  | none =>
    match paths.reverse.find? (fun d => isNestedUnder env_home d) with
    | some d => some d
    | none => paths.reverse.find? probe

/-- The discovery policy with stage two amended to the string-prefix test
the code performs (`bin_dir.startswith(env_home)`). -/
def binDirSpecPrefix (userhome env_home : String) (paths : List String)
    (probe : String → Bool) : Option String :=
  match PREFERRED_BIN_DIRS.find? (fun d => paths.contains (expanduser userhome d)) with
  | some d => some d
  | none =>
    match paths.reverse.find? (fun d => pyStartsWith d env_home) with
    | some d => some d
    | none => paths.reverse.find? probe

/-! ### Configuration-error classification -/

/-- The configuration errors of the spec: the target-exists error and the
unresolved-export-target error.  Subprocess failures and filesystem
collisions are not configuration errors. -/
def isConfigError : PyError → Bool
  | PyError.fileExistsTarget => true
  | PyError.typeErrorPathNone => true
  | _ => false

/-- The configuration error a step outcome ended with, if any. -/
def configErrOf (s : StepOut) : Option PyError :=
  match s.error with
  | some er => if isConfigError er then some er else none
  | none => none

/-! ### Concrete fixtures shared by witnesses and counterexamples -/

/-- Status of a path that neither exists nor is a symlink. -/
def freePath : PathStatus := ⟨false, false, false, false⟩

/-- Status of an existing non-empty directory. -/
def nonEmptyDir : PathStatus := ⟨true, false, true, false⟩

/-- Status of a broken symlink: `exists()` is false (it follows the
dangling referent), `is_symlink()` is true, `is_dir()` is false. -/
def brokenSymlink : PathStatus := ⟨false, true, false, false⟩

/-! ## Claims -/

/-- Claim C8: the effective log severity threshold is
`logging.INFO + 10 * (quiet - verbose)`: each `-q` raises it by exactly
10, each `-v` lowers it by exactly 10 from the fixed base
`logging.INFO`, and a non-empty `--log-config` makes `setup_logging`
load the file and ignore the verbosity-derived level entirely. -/
theorem C8_log_level_policy :
    (∀ v q, effectiveLevel v (q + 1) = effectiveLevel v q + 10)
    ∧ (∀ v q, effectiveLevel (v + 1) q = effectiveLevel v q - 10)
    ∧ effectiveLevel 0 0 = logging_INFO
    ∧ (∀ cfg v q, cfg.data.isEmpty = false →
        setup_logging (some cfg) v q = LogSetup.fromFile cfg) := by
  refine ⟨?_, ?_, by simp [effectiveLevel], ?_⟩
  · intro v q
    simp only [effectiveLevel]
    push_cast
    ring
  · intro v q
    simp only [effectiveLevel]
    push_cast
    ring
  · intro cfg v q hcfg
    simp [setup_logging, hcfg]

/-- Witness for C8 at concrete inputs. -/
theorem C8_log_level_policy_witness :
    setup_logging (some "logging.json") 2 0 = LogSetup.fromFile "logging.json"
    ∧ effectiveLevel 0 1 = effectiveLevel 0 0 + 10 :=
  ⟨C8_log_level_policy.2.2.2 "logging.json" 2 0 (by decide),
   C8_log_level_policy.1 0 0⟩

/-- Claim C9: a broken symlink at the target is classified occupied by
`_is_path_free` (its `is_symlink` test catches what `exists()` misses),
so without `--force` the pipeline fails with the target-already-exists
error. -/
theorem C9_broken_symlink_is_occupied (st : PathStatus) (a : CliArgs) (w : World)
    (hwf : st.WF) (hsym : st.isSymlink = true) (hex : st.fsExists = false)
    (hw : w.targetStatus = st) (hf : a.force = false) :
    _is_path_free st true = false
    ∧ (cli a w).error = some PyError.fileExistsTarget := by
  have hdir : st.isDir = false := by
    cases hd : st.isDir
    · rfl
    · have := hwf hd
      rw [this] at hex
      exact absurd hex (by simp)
  constructor
  · simp [_is_path_free, hsym, hex, hdir]
  · simp [cli, create_venv, _is_path_free, hw, hsym, hex, hdir, hf]

/-- Witness for C9 at concrete inputs. -/
theorem C9_broken_symlink_is_occupied_witness :
    _is_path_free brokenSymlink true = false
    ∧ (cli ⟨"/venv", false, false, some "/b", false, none, 0, 0⟩
        ⟨brokenSymlink, false, fun _ => true⟩).error
        = some PyError.fileExistsTarget :=
  C9_broken_symlink_is_occupied brokenSymlink
    ⟨"/venv", false, false, some "/b", false, none, 0, 0⟩
    ⟨brokenSymlink, false, fun _ => true⟩
    (by intro h; exact absurd h (by decide)) rfl rfl rfl rfl

/-- Claim C3: with an existing non-empty target directory and no
`--force`, the run fails with the target-already-exists error and its
trace holds no subprocess invocation and no filesystem mutation, so the
target contents are unchanged. -/
theorem C3_target_exists_fails_before_mutation (a : CliArgs) (w : World)
    (hex : w.targetStatus.fsExists = true) (hdir : w.targetStatus.isDir = true)
    (hne : w.targetStatus.dirEmpty = false) (hf : a.force = false) :
    (cli a w).error = some PyError.fileExistsTarget
    ∧ ((cli a w).events.all fun e => !e.isMutation && !e.isSubprocess) = true := by
  have hfree : _is_path_free w.targetStatus true = false := by
    simp [_is_path_free, hex, hdir, hne]
  have hcv : create_venv a.install_dir w.targetStatus a.force a.dry_run
      = ⟨[], some PyError.fileExistsTarget⟩ := by
    simp [create_venv, hfree, hf]
  simp only [cli, hcv]
  constructor
  · trivial
  · simp only [warnEvents]
    split <;> decide

/-- Witness for C3 at concrete inputs. -/
theorem C3_target_exists_fails_before_mutation_witness :
    (cli ⟨"/venv", false, false, some "/b", false, none, 0, 0⟩
        ⟨nonEmptyDir, false, fun _ => true⟩).error = some PyError.fileExistsTarget
    ∧ ((cli ⟨"/venv", false, false, some "/b", false, none, 0, 0⟩
        ⟨nonEmptyDir, false, fun _ => true⟩).events.all
          fun e => !e.isMutation && !e.isSubprocess) = true :=
  C3_target_exists_fails_before_mutation
    ⟨"/venv", false, false, some "/b", false, none, 0, 0⟩
    ⟨nonEmptyDir, false, fun _ => true⟩ rfl rfl rfl rfl

/-- Claim C1, evaluated at the failing input: with no bin directory
resolved, export not skipped, and a free target, `cli` merely logs the
critical message as its first event and then proceeds — the venv
creation and the pip subprocess occur (filesystem mutations), and only
afterwards does the run die with the `TypeError` from
`pathlib.Path(None)` inside `export_bin`, not with the reported
configuration error. -/
theorem C1_unresolved_bin_dir_mutates_before_failing :
    (cli ⟨"/venv", false, false, none, false, none, 0, 0⟩
        ⟨freePath, false, fun _ => true⟩).events.head?
      = some (Event.logCritical "Could not determine a suitable BIN_DIR.")
    ∧ Event.createVenvDir "/venv"
        ∈ (cli ⟨"/venv", false, false, none, false, none, 0, 0⟩
            ⟨freePath, false, fun _ => true⟩).events
    ∧ Event.runSubprocess (pipInstallCmd "/venv")
        ∈ (cli ⟨"/venv", false, false, none, false, none, 0, 0⟩
            ⟨freePath, false, fun _ => true⟩).events
    ∧ (cli ⟨"/venv", false, false, none, false, none, 0, 0⟩
        ⟨freePath, false, fun _ => true⟩).error = some PyError.typeErrorPathNone
    ∧ ((cli ⟨"/venv", false, false, none, false, none, 0, 0⟩
        ⟨freePath, false, fun _ => true⟩).events.any Event.isMutation) = true := by
  decide

/-- Claim C4, counterexample: with `--force` set, a free target, and an
entry already occupying the export location, the run still fails with the
`FileExistsError` of `symlink_to` — force does not overwrite the export
location, contradicting the claimed force/overwrite policy. -/
theorem C4_force_does_not_overwrite_symlink :
    (cli ⟨"/venv", true, false, some "/b", false, none, 0, 0⟩
        ⟨freePath, true, fun _ => true⟩).error = some PyError.fileExistsSymlink := by
  decide

/-- Claim C4 as amended: when an entry already exists at the export
location, a non-dry run fails there with `FileExistsError` regardless of
the force flag; the force flag only governs the installation target. -/
theorem C4_collision_always_fails (a : CliArgs) (w : World) (b : String)
    (hb : a.bin_dir = some b) (hne : a.no_export_bin = false)
    (hd : a.dry_run = false) (hl : w.linkExists = true)
    (hfree : _is_path_free w.targetStatus true = true)
    (hsub : ∀ c, w.subOk c = true) :
    ∀ f, (cli { a with force := f } w).error = some PyError.fileExistsSymlink := by
  intro f
  have hcv : create_venv a.install_dir w.targetStatus f a.dry_run
      = ⟨[Event.logInfo "Creating venv"] ++
          (if a.dry_run then [] else [Event.createVenvDir a.install_dir]), none⟩ := by
    simp [create_venv, hfree]
  have hip : (install_pipx a.install_dir a.dry_run w.subOk).error = none := by
    simp [install_pipx, hsub]
  simp only [cli, hcv]
  cases hipe : install_pipx a.install_dir a.dry_run w.subOk with
  | mk evs er =>
    rw [hipe] at hip
    simp only at hip
    subst hip
    simp [hne, hb, hd, hl, export_bin]

/-- Witness for the amended C4 at concrete inputs. -/
theorem C4_collision_always_fails_witness :
    (cli { (⟨"/venv", false, false, some "/b", false, none, 0, 0⟩ : CliArgs)
            with force := false }
        ⟨freePath, true, fun _ => true⟩).error = some PyError.fileExistsSymlink :=
  C4_collision_always_fails ⟨"/venv", false, false, some "/b", false, none, 0, 0⟩
    ⟨freePath, true, fun _ => true⟩ "/b" rfl rfl rfl rfl (by decide) (fun _ => rfl) false

/-! ### Loop/scan equivalences for the discovery policy -/

theorem findMatchingPreferred_eq (uh : String) (paths : List String)
    (l : List String) :
    findMatchingPreferred uh paths l
      = l.find? (fun d => paths.contains (expanduser uh d)) := by
  induction l with
  | nil => rfl
  | cons d rest ih =>
    simp only [findMatchingPreferred, List.find?_cons]
    cases hc : paths.contains (expanduser uh d) with
    | true => simp [hc]
    | false => simp [hc, ih]

theorem findHomePrefix_eq (h : String) (l : List String) :
    findHomePrefix h l = l.find? (fun d => pyStartsWith d h) := by
  induction l with
  | nil => rfl
  | cons d rest ih =>
    simp only [findHomePrefix, List.find?_cons]
    cases hc : pyStartsWith d h with
    | true => simp [hc]
    | false => simp [hc, ih]

theorem probeLoop_fst_eq (probe : String → Bool) (l : List String) :
    (probeLoop probe l).1 = l.find? probe := by
  induction l with
  | nil => rfl
  | cons d rest ih =>
    simp only [probeLoop, List.find?_cons]
    cases hc : probe d with
    | true => simp [hc]
    | false => simp [hc, ih]

/-- Claim C5, counterexample: with `HOME=/home/u` and `PATH=/home/user2`
(no preferred candidate on the path, probing failing everywhere), the
code returns `/home/user2` from its home scan — an entry that is not
nested under the home directory — while the discovery policy as claimed
(stage two requiring nesting under home) yields no directory at all. -/
theorem C5_startswith_is_not_nesting :
    (_get_default_bin_dir ⟨some "/home/user2", some "/home/u", "/home/u"⟩
        (fun _ => false)).1 = DiscResult.found "/home/user2"
    ∧ isNestedUnder "/home/u" "/home/user2" = false
    ∧ binDirSpecNested "/home/u" "/home/u" (pySplit "/home/user2" ':')
        (fun _ => false) = none := by
  decide

/-- Claim C5 as amended: with `PATH` and `HOME` both set, the discovery
result is exactly the staged policy of the spec with stage two read as
the string-prefix test `bin_dir.startswith(HOME)` the code performs:
first preferred conventional directory whose expansion is on the path;
else the last path entry (reverse scan) having `HOME` as a string
prefix; else the last path entry where a probe file can be created and
removed; else absent. -/
theorem C5_discovery_policy (pathStr h pwh : String) (probe : String → Bool) :
    (_get_default_bin_dir ⟨some pathStr, some h, pwh⟩ probe).1
      = match binDirSpecPrefix h h (pySplit pathStr ':') probe with
        | some d => DiscResult.found d
        | none => DiscResult.noneFound := by
  simp only [_get_default_bin_dir, binDirSpecPrefix, Option.getD_some]
  rw [← findMatchingPreferred_eq h (pySplit pathStr ':') PREFERRED_BIN_DIRS,
    ← findHomePrefix_eq h (pySplit pathStr ':').reverse,
    ← probeLoop_fst_eq probe (pySplit pathStr ':').reverse]
  cases findMatchingPreferred h (pySplit pathStr ':') PREFERRED_BIN_DIRS with
  | some d => rfl
  | none =>
    cases findHomePrefix h (pySplit pathStr ':').reverse with
    | some d => rfl
    | none =>
      cases probeLoop probe (pySplit pathStr ':').reverse with
      | mk r evs =>
        cases r with
        | some d => rfl
        | none => rfl

/-- Helper: a sublist of `m` is a sublist of any trace that contains `m`
as a contiguous block. -/
theorem sublist_append_middle {α : Type} (l m pre rest : List α)
    (h : List.Sublist l m) : List.Sublist l (pre ++ (m ++ rest)) :=
  (h.trans (List.sublist_append_left m rest)).trans
    (List.sublist_append_right pre (m ++ rest))

/-- Claim C6: with an existing non-empty target directory, `--force`, and
no dry run, `create_venv` succeeds with the exact trace "remove the
pre-existing path recursively, then create the environment", and the run's
trace contains the recursive removal strictly before the creation. -/
theorem C6_force_removes_then_creates (a : CliArgs) (w : World)
    (hex : w.targetStatus.fsExists = true) (hdir : w.targetStatus.isDir = true)
    (hne : w.targetStatus.dirEmpty = false) (hf : a.force = true)
    (hd : a.dry_run = false) :
    create_venv a.install_dir w.targetStatus a.force a.dry_run
      = ⟨[Event.logInfo "Removing pre-existing target.",
          Event.rmtree a.install_dir,
          Event.logInfo "Creating venv",
          Event.createVenvDir a.install_dir], none⟩
    ∧ List.Sublist [Event.rmtree a.install_dir, Event.createVenvDir a.install_dir]
        (cli a w).events := by
  have hfree : _is_path_free w.targetStatus true = false := by
    simp [_is_path_free, hex, hdir, hne]
  have hcv : create_venv a.install_dir w.targetStatus a.force a.dry_run
      = ⟨[Event.logInfo "Removing pre-existing target.",
          Event.rmtree a.install_dir,
          Event.logInfo "Creating venv",
          Event.createVenvDir a.install_dir], none⟩ := by
    simp [create_venv, hfree, hf, hd, _remove_path, hdir]
  refine ⟨hcv, ?_⟩
  have h0 : List.Sublist
      [Event.rmtree a.install_dir, Event.createVenvDir a.install_dir]
      [Event.logInfo "Removing pre-existing target.",
        Event.rmtree a.install_dir,
        Event.logInfo "Creating venv",
        Event.createVenvDir a.install_dir] := by
    apply List.Sublist.cons
    apply List.Sublist.cons₂
    apply List.Sublist.cons
    apply List.Sublist.cons₂
    exact List.Sublist.slnil
  simp only [cli, hcv]
  cases hip : (install_pipx a.install_dir a.dry_run w.subOk).error with
  | some er =>
    simpa using sublist_append_middle _ _ _ _ h0
  | none =>
    by_cases hnx : a.no_export_bin = true
    · simpa [hnx] using sublist_append_middle _ _ _ _ h0
    · simpa [hnx] using sublist_append_middle _ _ _ _ h0

/-- Witness for C6 at concrete inputs. -/
theorem C6_force_removes_then_creates_witness :
    create_venv "/venv" nonEmptyDir true false
      = ⟨[Event.logInfo "Removing pre-existing target.",
          Event.rmtree "/venv",
          Event.logInfo "Creating venv",
          Event.createVenvDir "/venv"], none⟩
    ∧ List.Sublist [Event.rmtree "/venv", Event.createVenvDir "/venv"]
        (cli ⟨"/venv", true, false, some "/b", false, none, 0, 0⟩
            ⟨nonEmptyDir, false, fun _ => true⟩).events :=
  C6_force_removes_then_creates
    ⟨"/venv", true, false, some "/b", false, none, 0, 0⟩
    ⟨nonEmptyDir, false, fun _ => true⟩ rfl rfl rfl rfl rfl

/-- Standard parser model for whole-program runs: the user passes no
explicit `--bin-dir`, so `bin_dir` is whatever `DEFAULT_BIN_DIR`
discovery produced. -/
def stdArgsOf : Option String → CliArgs :=
  fun b => ⟨"/venv", false, false, b, false, none, 0, 0⟩

/-- Standard world for whole-program runs: free target, free export
location, all subprocesses succeed. -/
def stdWorld : World := ⟨freePath, false, fun _ => true⟩

/-- Claim C10: bin-directory auto-discovery runs at module import, before
argument parsing.  With `PATH` unset it raises at once
(`None.split`); with `HOME` unset it raises (`startswith(None)`) as soon
as no preferred candidate matched and the home scan begins.  In both
cases the program dies with an empty trace and `cli` never runs, so no
command-line flag is ever considered. -/
theorem C10_import_requires_path_and_home (e : Env) (probe : String → Bool)
    (argsOf : Option String → CliArgs) (w : World) :
    (e.pathVar = none →
      program e probe argsOf w
        = ⟨some PyError.attributeErrorNoneSplit, none, []⟩)
    ∧ (∀ p, e.pathVar = some p → e.homeVar = none →
        findMatchingPreferred e.pwHome (pySplit p ':') PREFERRED_BIN_DIRS = none →
        program e probe argsOf w
          = ⟨some PyError.typeErrorStartswithNone, none, []⟩) := by
  constructor
  · intro hp
    simp [program, _get_default_bin_dir, hp]
  · intro p hp hh hpref
    have hne2 : (pySplit p ':').isEmpty = false := by
      cases hps : pySplit p ':' with
      | nil => exact absurd hps (pySplit_ne_nil p ':')
      | cons x xs => rfl
    simp [program, _get_default_bin_dir, hp, hh, hpref, hne2]

/-- Witness for C10 at concrete inputs. -/
theorem C10_import_requires_path_and_home_witness :
    program ⟨none, some "/h", "/h"⟩ (fun _ => false) stdArgsOf stdWorld
      = ⟨some PyError.attributeErrorNoneSplit, none, []⟩
    ∧ program ⟨some "/x", none, "/h"⟩ (fun _ => false) stdArgsOf stdWorld
      = ⟨some PyError.typeErrorStartswithNone, none, []⟩ :=
  ⟨(C10_import_requires_path_and_home ⟨none, some "/h", "/h"⟩ (fun _ => false)
      stdArgsOf stdWorld).1 rfl,
   (C10_import_requires_path_and_home ⟨some "/x", none, "/h"⟩ (fun _ => false)
      stdArgsOf stdWorld).2 "/x" rfl rfl (by decide)⟩

/-- Claim C2, counterexample: a dry-run invocation of the whole program
still creates and deletes a filesystem path.  With `PATH=/x`, `HOME=/h`
and `/x` writable, import-time bin-directory discovery reaches its
probing stage and touches then unlinks `/x/pipx`, although every parsed
argument combination here carries `dry_run = true`. -/
theorem C2_probe_mutates_under_dry_run :
    Event.touchFile "/x/pipx"
      ∈ (program ⟨some "/x", some "/h", "/h"⟩ (fun _ => true)
          (fun b => ⟨"/venv", false, true, b, false, none, 0, 0⟩) stdWorld).events
    ∧ Event.unlinkFile "/x/pipx"
        ∈ (program ⟨some "/x", some "/h", "/h"⟩ (fun _ => true)
            (fun b => ⟨"/venv", false, true, b, false, none, 0, 0⟩) stdWorld).events
    ∧ (∀ b : Option String,
        CliArgs.dry_run ⟨"/venv", false, true, b, false, none, 0, 0⟩ = true)
    ∧ Event.isMutation (Event.touchFile "/x/pipx") = true := by
  refine ⟨by decide, by decide, ?_, by decide⟩
  exact fun b => rfl

/-- Claim C2 as amended: the CLI pipeline itself (everything after
argument parsing) mutates nothing under dry run, its dry trace is
exactly the non-dry trace with mutations and subprocess invocations
dropped, and it ends in the same configuration error (or none) as the
non-dry run with the same arguments — only import-time bin-directory
probing is exempt.  Subprocesses of the non-dry run are assumed to
succeed, since a subprocess failure is not a configuration error. -/
theorem C2_dry_run_no_mutation_same_config_errors (a : CliArgs) (w : World)
    (hsub : ∀ c, w.subOk c = true) :
    ((cli { a with dry_run := true } w).events.all fun e => !e.isMutation) = true
    ∧ (cli { a with dry_run := true } w).events
        = ((cli { a with dry_run := false } w).events.filter
            fun e => !e.isMutation && !e.isSubprocess)
    ∧ configErrOf (cli { a with dry_run := true } w)
        = configErrOf (cli { a with dry_run := false } w) := by
  by_cases h1 : _is_path_free w.targetStatus true <;>
    by_cases h2 : a.force = true <;>
      by_cases h3 : w.targetStatus.isDir = true <;>
        by_cases h4 : a.no_export_bin = true <;>
          by_cases h5 : w.linkExists = true <;>
            cases hbd : a.bin_dir <;>
              simp_all [cli, create_venv, install_pipx, export_bin, _remove_path,
                warnEvents, configErrOf, isConfigError, Event.isMutation,
                Event.isSubprocess, pyTruthy] <;>
                (try (split <;> rfl))

/-- Witness for the amended C2 at concrete inputs. -/
theorem C2_dry_run_witness :
    ((cli { (⟨"/venv", false, false, some "/b", false, none, 0, 0⟩ : CliArgs)
          with dry_run := true } stdWorld).events.all fun e => !e.isMutation) = true
    ∧ (cli { (⟨"/venv", false, false, some "/b", false, none, 0, 0⟩ : CliArgs)
          with dry_run := true } stdWorld).events
        = ((cli { (⟨"/venv", false, false, some "/b", false, none, 0, 0⟩ : CliArgs)
              with dry_run := false } stdWorld).events.filter
            fun e => !e.isMutation && !e.isSubprocess)
    ∧ configErrOf (cli { (⟨"/venv", false, false, some "/b", false, none, 0, 0⟩ : CliArgs)
          with dry_run := true } stdWorld)
        = configErrOf (cli { (⟨"/venv", false, false, some "/b", false, none, 0, 0⟩ : CliArgs)
              with dry_run := false } stdWorld) :=
  C2_dry_run_no_mutation_same_config_errors
    ⟨"/venv", false, false, some "/b", false, none, 0, 0⟩ stdWorld (fun _ => rfl)

/-- Helper: `create_venv` never spawns a subprocess. -/
theorem create_venv_no_subprocess (d : String) (st : PathStatus) (f dr : Bool) :
    ((create_venv d st f dr).events.all fun e => !e.isSubprocess) = true := by
  by_cases h1 : _is_path_free st true <;>
    by_cases h3 : st.isDir = true <;>
      by_cases hdr : dr = true <;>
        by_cases h2 : f = true <;>
          simp_all [create_venv, _remove_path, Event.isSubprocess]

/-- Helper: `export_bin` never spawns a subprocess. -/
theorem export_bin_no_subprocess (d : String) (bd : Option String) (le dr : Bool) :
    ((export_bin d bd le dr).events.all fun e => !e.isSubprocess) = true := by
  cases bd <;>
    by_cases hdr : dr = true <;>
      by_cases hle : le = true <;>
        simp_all [export_bin, Event.isSubprocess]

/-- Helper: the critical bin-dir warning spawns no subprocess. -/
theorem warnEvents_no_subprocess (a : CliArgs) :
    ((warnEvents a).all fun e => !e.isSubprocess) = true := by
  unfold warnEvents
  split <;> rfl

/-- Claim C7: every invoked subprocess that exits non-zero — the
upgrade/install pip invocations and `pipx ensurepath` in
`install_pipx.py`, and the pip invocation of `pipx_installer` — makes
the run fail with `CalledProcessError` at once: the failing invocation
is the very last event of the trace (no later pipeline step runs and
nothing completed earlier is undone; in `install_pipx.py` no removal
event ever occurs at all), and the failing command does not occur
earlier in the trace (no retry). -/
theorem C7_subprocess_failure_is_fatal :
    (∀ (a : Cli2Args) (localBin : String) (subOk : List String → Bool)
        (linkExists : Bool) (c : List String),
      Event.runSubprocess c ∈ (cli2 a localBin subOk linkExists).events →
      subOk c = false →
      (cli2 a localBin subOk linkExists).error = some PyError.calledProcessError
      ∧ ((cli2 a localBin subOk linkExists).events.all fun e => !e.isRemoval) = true
      ∧ ∃ pre, (cli2 a localBin subOk linkExists).events
            = pre ++ [Event.runSubprocess c]
          ∧ Event.runSubprocess c ∉ pre)
    ∧ (∀ (a : CliArgs) (w : World) (c : List String),
      Event.runSubprocess c ∈ (cli a w).events →
      w.subOk c = false →
      (cli a w).error = some PyError.calledProcessError
      ∧ ∃ pre, (cli a w).events = pre ++ [Event.runSubprocess c]
          ∧ Event.runSubprocess c ∉ pre) := by
  constructor
  · intro a localBin subOk linkExists c hmem hfail
    cases hd : a.dry_run with
    | true =>
      exfalso
      cases hu : a.upgrade_deps <;> cases he : a.ensure_path <;>
        simp_all [cli2]
    | false =>
      cases hu : a.upgrade_deps with
      | true =>
        cases h1 : subOk (upgradeCmd a.env_dir) with
        | false =>
          refine ⟨by simp [cli2, hd, hu, h1],
            by simp [cli2, hd, hu, h1, Event.isRemoval], ?_⟩
          simp [cli2, hd, hu, h1] at hmem ⊢
          subst hmem
          refine ⟨[Event.logInfo "creating Python environment",
            Event.createVenvDir a.env_dir,
            Event.logInfo "upgrading core dependencies"], by simp, by simp⟩
        | true =>
          cases h2 : subOk (installCmd a.env_dir) with
          | false =>
            refine ⟨by simp [cli2, hd, hu, h1, h2],
              by simp [cli2, hd, hu, h1, h2, Event.isRemoval], ?_⟩
            simp [cli2, hd, hu, h1, h2] at hmem ⊢
            rcases hmem with rfl | rfl
            · exact absurd hfail (by simp [h1])
            · refine ⟨[Event.logInfo "creating Python environment",
                Event.createVenvDir a.env_dir,
                Event.logInfo "upgrading core dependencies",
                Event.runSubprocess (upgradeCmd a.env_dir),
                Event.logInfo "installing pipx"], by simp, ?_⟩
              simp [installCmd, upgradeCmd, CORE_VENV_DEPS]
          | true =>
            cases he : a.ensure_path with
            | false =>
              exfalso
              simp [cli2, hd, hu, h1, h2, he] at hmem
              rcases hmem with rfl | rfl
              · exact absurd hfail (by simp [h1])
              · exact absurd hfail (by simp [h2])
            | true =>
              cases h3 : subOk (ensurepathCmd a.env_dir) with
              | false =>
                refine ⟨by simp [cli2, hd, hu, h1, h2, he, h3],
                  by simp [cli2, hd, hu, h1, h2, he, h3, Event.isRemoval], ?_⟩
                simp [cli2, hd, hu, h1, h2, he, h3] at hmem ⊢
                rcases hmem with rfl | rfl | rfl
                · exact absurd hfail (by simp [h1])
                · exact absurd hfail (by simp [h2])
                · refine ⟨[Event.logInfo "creating Python environment",
                    Event.createVenvDir a.env_dir,
                    Event.logInfo "upgrading core dependencies",
                    Event.runSubprocess (upgradeCmd a.env_dir),
                    Event.logInfo "installing pipx",
                    Event.runSubprocess (installCmd a.env_dir),
                    Event.logInfo "calling pipx ensurepath"], by simp, ?_⟩
                  simp [installCmd, upgradeCmd, ensurepathCmd, CORE_VENV_DEPS]
              | true =>
                exfalso
                cases hl : linkExists <;>
                  simp [cli2, hd, hu, h1, h2, he, h3, hl] at hmem <;>
                  rcases hmem with rfl | rfl | rfl <;>
                  simp_all
      | false =>
        cases h2 : subOk (installCmd a.env_dir) with
        | false =>
          refine ⟨by simp [cli2, hd, hu, h2],
            by simp [cli2, hd, hu, h2, Event.isRemoval], ?_⟩
          simp [cli2, hd, hu, h2] at hmem ⊢
          subst hmem
          refine ⟨[Event.logInfo "creating Python environment",
            Event.createVenvDir a.env_dir,
            Event.logInfo "installing pipx"], by simp, by simp⟩
        | true =>
          cases he : a.ensure_path with
          | false =>
            exfalso
            simp [cli2, hd, hu, h2, he] at hmem
            subst hmem
            exact absurd hfail (by simp [h2])
          | true =>
            cases h3 : subOk (ensurepathCmd a.env_dir) with
            | false =>
              refine ⟨by simp [cli2, hd, hu, h2, he, h3],
                by simp [cli2, hd, hu, h2, he, h3, Event.isRemoval], ?_⟩
              simp [cli2, hd, hu, h2, he, h3] at hmem ⊢
              rcases hmem with rfl | rfl
              · exact absurd hfail (by simp [h2])
              · refine ⟨[Event.logInfo "creating Python environment",
                  Event.createVenvDir a.env_dir,
                  Event.logInfo "installing pipx",
                  Event.runSubprocess (installCmd a.env_dir),
                  Event.logInfo "calling pipx ensurepath"], by simp, ?_⟩
                simp [installCmd, ensurepathCmd]
            | true =>
              exfalso
              cases hl : linkExists <;>
                simp [cli2, hd, hu, h2, he, h3, hl] at hmem <;>
                rcases hmem with rfl | rfl <;>
                simp_all
  · intro a w c hmem hfail
    have hwarn := warnEvents_no_subprocess a
    have hcvall := create_venv_no_subprocess a.install_dir w.targetStatus
      a.force a.dry_run
    have hnosub : ∀ (l : List Event), (l.all fun e => !e.isSubprocess) = true →
        Event.runSubprocess c ∉ l := by
      intro l hl hin
      have hfalse := List.all_eq_true.1 hl _ hin
      simp [Event.isSubprocess] at hfalse
    simp only [cli] at hmem ⊢
    cases hcvE : (create_venv a.install_dir w.targetStatus a.force a.dry_run).error with
    | some er =>
      exfalso
      simp only [hcvE, List.mem_append] at hmem
      rcases hmem with h | h
      · exact hnosub _ hwarn h
      · exact hnosub _ hcvall h
    | none =>
      simp only [hcvE] at hmem ⊢
      cases hd : a.dry_run with
      | true =>
        exfalso
        have hcvall2 := create_venv_no_subprocess a.install_dir w.targetStatus
          a.force true
        by_cases hnx : a.no_export_bin = true <;>
          simp_all [install_pipx, hnosub _ hwarn, hnosub _ hcvall2,
            hnosub _ (export_bin_no_subprocess a.install_dir a.bin_dir
              w.linkExists true)]
      | false =>
        have hcvall3 := create_venv_no_subprocess a.install_dir w.targetStatus
          a.force false
        cases hsp : w.subOk (pipInstallCmd a.install_dir) with
        | true =>
          exfalso
          by_cases hnx : a.no_export_bin = true <;>
            simp_all [install_pipx, hnosub _ hwarn, hnosub _ hcvall3,
              hnosub _ (export_bin_no_subprocess a.install_dir a.bin_dir
                w.linkExists false)]
        | false =>
          have herr : (install_pipx a.install_dir false w.subOk).error
              = some PyError.calledProcessError := by
            simp [install_pipx, hsp]
          have hev : (install_pipx a.install_dir false w.subOk).events
              = [Event.logInfo "Installing pipx",
                 Event.runSubprocess (pipInstallCmd a.install_dir)] := by
            simp [install_pipx]
          rw [hd] at hmem
          simp only [herr, hev] at hmem ⊢
          refine ⟨by trivial, ?_⟩
          rcases List.mem_append.1 hmem with h01 | h2
          · rcases List.mem_append.1 h01 with h | h
            · exact absurd h (hnosub _ hwarn)
            · exact absurd h (hnosub _ hcvall3)
          · have hc : c = pipInstallCmd a.install_dir := by simpa using h2
            subst hc
            refine ⟨warnEvents a
                ++ (create_venv a.install_dir w.targetStatus a.force false).events
                ++ [Event.logInfo "Installing pipx"], by simp, ?_⟩
            simp only [List.mem_append]
            rintro ((h3 | h3) | h3)
            · exact hnosub _ hwarn h3
            · exact hnosub _ hcvall3 h3
            · simp at h3

/-- Witness for C7 at concrete inputs: the pip install subprocess fails. -/
theorem C7_subprocess_failure_is_fatal_witness :
    (cli2 ⟨"/venv", false, false, true, none, false, true, false, none, 0, 0⟩
        "/b" (fun c => !(c == installCmd "/venv")) false).error
      = some PyError.calledProcessError
    ∧ ((cli2 ⟨"/venv", false, false, true, none, false, true, false, none, 0, 0⟩
        "/b" (fun c => !(c == installCmd "/venv")) false).events.all
          fun e => !e.isRemoval) = true
    ∧ ∃ pre, (cli2 ⟨"/venv", false, false, true, none, false, true, false, none, 0, 0⟩
          "/b" (fun c => !(c == installCmd "/venv")) false).events
        = pre ++ [Event.runSubprocess (installCmd "/venv")]
      ∧ Event.runSubprocess (installCmd "/venv") ∉ pre :=
  C7_subprocess_failure_is_fatal.1
    ⟨"/venv", false, false, true, none, false, true, false, none, 0, 0⟩
    "/b" (fun c => !(c == installCmd "/venv")) false (installCmd "/venv")
    (by decide) (by decide)

end PipxInstaller
